import Mathlib

/-!
Shallow embedding of the pyledger repository's core logic: the journal
posting engine (pyledger/accounts.py, pyledger/journal.py), the payment
clearing engine (pyledger/payment_clearing.py, pyledger/db.py) and the
aging scheduler (pyledger/db.py).  Monetary amounts are modelled as
rationals, dates as integers (day numbers; ISO `YYYY-MM-DD` strings are
ordered chronologically, so integer order is faithful).  Python
exceptions are modelled as `Option`/explicit failure flags, and the
SQLite tables as lists of records.
-/

namespace PyLedger

/-- Account types, from pyledger/accounts.py `class AccountType(Enum)`. -/
inductive AccountType where
  | asset
  | liability
  | equity
  | revenue
  | expense
deriving DecidableEq, Repr

/-- An account record, from pyledger/accounts.py `class Account`. -/
structure Account where
  code : String
  name : String
  type : AccountType
  balance : ℚ
deriving DecidableEq, Repr

/-- A journal line, from pyledger/journal.py `class JournalLine`. -/
structure JournalLine where
  account_code : String
  amount : ℚ
  is_debit : Bool
deriving DecidableEq, Repr

/-- A journal entry, from pyledger/journal.py `class JournalEntry`.
The constructor's balance check is modelled by `mkJournalEntry`. -/
structure JournalEntry where
  description : String
  lines : List JournalLine
deriving DecidableEq, Repr

/-- `sum(line.amount for line in self.lines if line.is_debit)` in
`JournalEntry.is_balanced`. -/
def totalDebits (lines : List JournalLine) : ℚ :=
  (lines.filter (fun l => l.is_debit)).foldl (fun s l => s + l.amount) 0

/-- `sum(line.amount for line in self.lines if not line.is_debit)` in
`JournalEntry.is_balanced`. -/
def totalCredits (lines : List JournalLine) : ℚ :=
  (lines.filter (fun l => !l.is_debit)).foldl (fun s l => s + l.amount) 0

/-- `JournalEntry.is_balanced`: `abs(total_debits - total_credits) < 1e-6`. -/
def is_balanced (lines : List JournalLine) : Bool :=
  decide (|totalDebits lines - totalCredits lines| < 1 / 1000000)

/-- `JournalEntry.__init__`: raises `ValueError` (modelled as `none`) when
the lines are not balanced. -/
def mkJournalEntry (description : String) (lines : List JournalLine) : Option JournalEntry :=
  if is_balanced lines then some ⟨description, lines⟩ else none

/-- The `ChartOfAccounts.accounts` dict is modelled as a list of accounts
keyed by `code`; `get_account` is the dict lookup `self.accounts[code]`,
returning `none` for a `KeyError`. -/
def getAccount (chart : List Account) (code : String) : Option Account :=
  chart.find? (fun a => a.code == code)

/-- In-place mutation of the account object stored under `code` (Python
mutates the object held by the dict; the list entry with that code is
replaced by its updated version). -/
def updateAccount (code : String) (f : Account → Account) : List Account → List Account
  | [] => []
  | a :: rest => if a.code == code then f a :: rest else a :: updateAccount code f rest

/-- The body of the `for line in entry.lines` loop of `Ledger.post_entry`,
acting on the referenced account. -/
def applyLineAccount (account : Account) (line : JournalLine) : Account :=
  if line.is_debit then
    if account.type = AccountType.asset ∨ account.type = AccountType.expense then
      { account with balance := account.balance + line.amount }
    else
      { account with balance := account.balance - line.amount }
  else
    if account.type = AccountType.asset ∨ account.type = AccountType.expense then
      { account with balance := account.balance - line.amount }
    else
      { account with balance := account.balance + line.amount }

/-- One iteration of `Ledger.post_entry` on the chart: looking up a missing
account code raises `KeyError` (`none`). -/
def applyLine (chart : List Account) (line : JournalLine) : Option (List Account) :=
  match getAccount chart line.account_code with
  | none => none
  | some _ => some (updateAccount line.account_code (fun a => applyLineAccount a line) chart)

/-- The whole loop of `Ledger.post_entry`.  When a `KeyError` escapes
mid-loop the chart keeps the mutations already made (second component
`false`); otherwise all lines are applied (`true`). -/
def postLines : List Account → List JournalLine → List Account × Bool
  | chart, [] => (chart, true)
  | chart, l :: ls =>
    match applyLine chart l with
    | none => (chart, false)
    | some chart2 => postLines chart2 ls

/-- A ledger, from pyledger/journal.py `class Ledger`. -/
structure Ledger where
  chart : List Account
  entries : List JournalEntry
deriving DecidableEq, Repr

/-- `Ledger.post_entry`: apply every line, then append the entry.  If the
loop raises, the entry is not appended but the partial balance mutations
remain. -/
def post_entry (led : Ledger) (e : JournalEntry) : Ledger × Bool :=
  match postLines led.chart e.lines with
  | (chart2, true) => ({ chart := chart2, entries := led.entries ++ [e] }, true)
  | (chart2, false) => ({ chart := chart2, entries := led.entries }, false)

/-- The caller pattern `ledger.post_entry(JournalEntry(description, lines))`:
the constructor's balance check runs first, and a `ValueError` there
leaves the ledger untouched. -/
def constructAndPost (led : Ledger) (description : String) (lines : List JournalLine) :
    Ledger × Bool :=
  match mkJournalEntry description lines with
  | none => (led, false)
  | some e => post_entry led e

/-- Modelled from the spec: the sign rule, "for Asset/Expense accounts, a
debit increases balance and a credit decreases it; for
Liability/Equity/Revenue accounts, a debit decreases balance and a credit
increases it".  Named with a `spec` prefix because it renders the spec's
words, to be compared against the code-derived `applyLineAccount`. -/
def specSignedDelta (t : AccountType) (amount : ℚ) (isDebit : Bool) : ℚ :=
  match t with
  | AccountType.asset => if isDebit then amount else -amount
  | AccountType.expense => if isDebit then amount else -amount
  | _ => if isDebit then -amount else amount

/-- Cash account of the spec's worked example, fresh. -/
def cashAccount : Account := ⟨"1000", "Cash", AccountType.asset, 0⟩

/-- Equipment account of the spec's worked example, fresh. -/
def equipmentAccount : Account := ⟨"1500", "Equipment", AccountType.asset, 0⟩

/-- Equity account of the spec's worked example, fresh. -/
def equityAccount : Account := ⟨"3000", "Owner Equity", AccountType.equity, 0⟩

/-- A fresh ledger holding the example chart with zero balances. -/
def freshLedger : Ledger := ⟨[cashAccount, equipmentAccount, equityAccount], []⟩

/-- The ledger after posting {Debit Cash 10000, Credit Equity 10000} and
then {Debit Equipment 8000, Credit Cash 8000} on the fresh chart. -/
def scenarioLedger : Ledger :=
  (constructAndPost
    (constructAndPost freshLedger "Initial investment"
      [⟨"1000", 10000, true⟩, ⟨"3000", 10000, false⟩]).1
    "Buy equipment"
    [⟨"1500", 8000, true⟩, ⟨"1000", 8000, false⟩]).1

/-- The worked example of the spec: final balances Cash 2000, Equipment
8000, Equity 10000. -/
def scenarioBalances : Prop :=
  getAccount scenarioLedger.chart "1000" = some ⟨"1000", "Cash", AccountType.asset, 2000⟩
  ∧ getAccount scenarioLedger.chart "1500" = some ⟨"1500", "Equipment", AccountType.asset, 8000⟩
  ∧ getAccount scenarioLedger.chart "3000"
      = some ⟨"3000", "Owner Equity", AccountType.equity, 10000⟩

/-- Ledger used by the C3 counterexample: Cash and Equity, both zero. -/
def c3Ledger : Ledger :=
  ⟨[⟨"1000", "Cash", AccountType.asset, 0⟩, ⟨"3000", "Equity", AccountType.equity, 0⟩], []⟩

/-- A balanced entry whose credit line references the nonexistent account
code 9999. -/
def c3Lines : List JournalLine := [⟨"1000", 500, true⟩, ⟨"9999", 500, false⟩]

/-- An invoice row of the `invoices` table (pyledger/db.py).  Column order
of the `list_invoices` SELECT: invoice_number (0), customer_name (1),
customer_address (2), issue_date (3), due_date (4), status (5), notes (6),
subtotal (7), total_tax (8), total_amount (9), paid_amount (10),
paid_date (11). -/
structure DbInvoice where
  invoice_number : String
  customer_name : String
  customer_address : String
  issue_date : ℤ
  due_date : ℤ
  status : String
  notes : String
  subtotal : ℚ
  total_tax : ℚ
  total_amount : ℚ
  paid_amount : ℚ
  paid_date : Option ℤ
deriving DecidableEq, Repr

/-- A purchase-order row (pyledger/db.py `purchase_orders`), restricted to
the columns the aging scheduler reads. -/
structure DbPurchaseOrder where
  po_number : String
  supplier_name : String
  order_date : ℤ
  total_amount : ℚ
  received_total : ℚ
deriving DecidableEq, Repr

/-- A `payment_clearings` row (pyledger/db.py `add_payment_clearing`). -/
structure ClearingRecord where
  clearing_date : ℤ
  payment_type : String
  payment_reference : String
  invoice_number : Option String
  po_number : Option String
  customer_supplier_name : String
  original_amount : ℚ
  cleared_amount : ℚ
  remaining_amount : ℚ
  clearing_method : String
  notes : String
deriving DecidableEq, Repr

/-- An `aging_schedules` row (pyledger/db.py `add_aging_schedule`). -/
structure AgingRecord where
  schedule_date : ℤ
  schedule_type : String
  customer_supplier_name : String
  invoice_number : Option String
  po_number : Option String
  original_amount : ℚ
  current_balance : ℚ
  days_overdue : ℤ
  aging_period : String
  notes : String
deriving DecidableEq, Repr

/-- The SQLite database state reachable by the operations modelled here.
INSERTs append; surrogate ids and created_at timestamps are not modelled. -/
structure Database where
  invoices : List DbInvoice
  purchase_orders : List DbPurchaseOrder
  clearings : List ClearingRecord
  agings : List AgingRecord
deriving DecidableEq, Repr

/-- `list_invoices(conn, status=...)`: `WHERE status = ?`.  The
`ORDER BY issue_date DESC` is omitted: the callers modelled here only
test membership or look up by the unique (PRIMARY KEY) invoice_number,
which the row order does not affect. -/
def list_invoices_with_status (db : Database) (status : String) : List DbInvoice :=
  db.invoices.filter (fun i => i.status == status)

/-- `SELECT ... FROM invoices WHERE invoice_number = ?` + `fetchone()`. -/
def fetchInvoice (db : Database) (num : String) : Option DbInvoice :=
  db.invoices.find? (fun i => i.invoice_number == num)

/-- `add_payment_clearing`: INSERT INTO payment_clearings. -/
def add_payment_clearing (db : Database) (r : ClearingRecord) : Database :=
  { db with clearings := db.clearings ++ [r] }

/-- `clear_invoice_payment` (pyledger/db.py): fetch the invoice, add the
payment to `paid_amount`, record the signed remaining balance, append one
clearing record.  A missing invoice raises `ValueError` (`none`). -/
def clear_invoice_payment (db : Database) (invoice_number : String) (payment_amount : ℚ)
    (payment_date : ℤ) (payment_reference : String) (clearing_method : String) :
    Option Database :=
  match fetchInvoice db invoice_number with
  | none => none
  | some inv =>
    let new_paid_amount := inv.paid_amount + payment_amount
    let remaining_amount := inv.total_amount - new_paid_amount
    let db2 : Database :=
      { db with
          invoices := db.invoices.map (fun i =>
            if i.invoice_number == invoice_number then
              { i with paid_amount := new_paid_amount, paid_date := some payment_date }
            else i) }
    some (add_payment_clearing db2
      { clearing_date := payment_date
        payment_type := "receivable"
        payment_reference := payment_reference
        invoice_number := some invoice_number
        po_number := none
        customer_supplier_name := inv.customer_name
        original_amount := inv.total_amount
        cleared_amount := payment_amount
        remaining_amount := remaining_amount
        clearing_method := clearing_method
        notes := "Payment clearing for invoice " ++ invoice_number })

/-- `PaymentClearingManager.clear_single_invoice_payment`: searches the
unpaid-status invoice list for the number and raises `ValueError`
("not found or already paid", modelled `none`) when it is absent;
otherwise delegates to `clear_invoice_payment`.  The result dictionary it
builds afterwards is not modelled (the claims here concern the rejection
criterion and the state effects). -/
def clear_single_invoice_payment (db : Database) (invoice_number : String)
    (payment_amount : ℚ) (payment_date : ℤ) (payment_reference : String)
    (clearing_method : String) : Option Database :=
  match (list_invoices_with_status db "unpaid").find?
      (fun i => i.invoice_number == invoice_number) with
  | none => none
  | some _ =>
    clear_invoice_payment db invoice_number payment_amount payment_date payment_reference
      clearing_method

/-- The per-invoice dictionary built by the loading loop of
`clear_multiple_invoices_payment`. -/
structure ClearingInvoice where
  invoice_number : String
  outstanding : ℚ
  total_amount : ℚ
  paid_amount : ℚ
  issue_date : ℤ
deriving DecidableEq, Repr

/-- The loading loop of `clear_multiple_invoices_payment`.  In the
`list_invoices` row, index 8 is the `total_tax` column and index 10 is
`paid_amount`, so the code's `outstanding = inv[8] - inv[10]` loads
`total_tax - paid_amount` (its inline comment claims
`total_amount - paid_amount`), and the dict key named total_amount also
receives `inv[8]`, the tax column; `inv[3]` is `issue_date`. -/
def gatherClearingInvoices (db : Database) (invoice_numbers : List String) :
    List ClearingInvoice :=
  invoice_numbers.filterMap (fun n =>
    ((list_invoices_with_status db "unpaid").find? (fun i => i.invoice_number == n)).map
      (fun inv =>
        { invoice_number := n
          outstanding := inv.total_tax - inv.paid_amount
          total_amount := inv.total_tax
          paid_amount := inv.paid_amount
          issue_date := inv.issue_date }))

/-- One allocation produced by the `_allocate_*` strategies (the
proportional strategy's extra `proportion` key is not modelled). -/
structure Allocation where
  invoice_number : String
  amount : ℚ
deriving DecidableEq, Repr

/-- `total_outstanding = sum(inv['outstanding'] for inv in invoices)`. -/
def sumOutstanding (invoices : List ClearingInvoice) : ℚ :=
  invoices.foldl (fun s i => s + i.outstanding) 0

/-- `PaymentClearingManager._allocate_proportional`. -/
def allocate_proportional (invoices : List ClearingInvoice) (total_amount : ℚ) :
    List Allocation :=
  let total_outstanding := sumOutstanding invoices
  invoices.map (fun inv =>
    if 0 < total_outstanding then
      { invoice_number := inv.invoice_number
        amount := min (total_amount * (inv.outstanding / total_outstanding)) inv.outstanding }
    else
      { invoice_number := inv.invoice_number, amount := 0 })

/-- The shared greedy loop of `_allocate_oldest_first` and
`_allocate_largest_first`: assign `min(remaining, outstanding)` in order;
once the remaining amount is exhausted later invoices get amount 0. -/
def greedyAllocate (remaining_amount : ℚ) : List ClearingInvoice → List Allocation
  | [] => []
  | inv :: rest =>
    if remaining_amount ≤ 0 then
      { invoice_number := inv.invoice_number, amount := 0 } :: greedyAllocate remaining_amount rest
    else
      { invoice_number := inv.invoice_number, amount := min remaining_amount inv.outstanding } ::
        greedyAllocate (remaining_amount - min remaining_amount inv.outstanding) rest

/-- `PaymentClearingManager._allocate_oldest_first`: stable sort ascending
by issue_date (Python `sorted`), then the greedy loop. -/
def allocate_oldest_first (invoices : List ClearingInvoice) (total_amount : ℚ) :
    List Allocation :=
  greedyAllocate total_amount
    (invoices.mergeSort (fun a b => decide (a.issue_date ≤ b.issue_date)))

/-- `PaymentClearingManager._allocate_largest_first`: stable sort
descending by outstanding amount (`sorted(..., reverse=True)`), then the
greedy loop. -/
def allocate_largest_first (invoices : List ClearingInvoice) (total_amount : ℚ) :
    List Allocation :=
  greedyAllocate total_amount
    (invoices.mergeSort (fun a b => decide (b.outstanding ≤ a.outstanding)))

/-- `PaymentClearingManager._allocate_payment`: dispatch on the method
name; an unknown method raises `ValueError` (`none`). -/
def allocate_payment (invoices : List ClearingInvoice) (total_amount : ℚ) (method : String) :
    Option (List Allocation) :=
  if method == "proportional" then some (allocate_proportional invoices total_amount)
  else if method == "oldest_first" then some (allocate_oldest_first invoices total_amount)
  else if method == "largest_first" then some (allocate_largest_first invoices total_amount)
  else none

/-- `PaymentClearingManager.clear_multiple_invoices_payment`: load the
eligible invoices, fail with "No valid invoices found for clearing"
(`none`) when that set is empty, allocate, then clear each nonzero
allocation via the single-invoice path with the suffixed reference. -/
def clear_multiple_invoices_payment (db : Database) (invoice_numbers : List String)
    (total_payment_amount : ℚ) (payment_date : ℤ) (payment_reference : String)
    (allocation_method : String) : Option Database :=
  let invoices := gatherClearingInvoices db invoice_numbers
  if invoices.isEmpty then none
  else
    match allocate_payment invoices total_payment_amount allocation_method with
    | none => none
    | some allocations =>
      allocations.foldl
        (fun acc alloc =>
          acc.bind (fun d =>
            if 0 < alloc.amount then
              clear_single_invoice_payment d alloc.invoice_number alloc.amount payment_date
                (payment_reference ++ "-" ++ alloc.invoice_number) "multiple"
            else some d))
        (some db)

/-- The aging-period bucketing of `generate_aging_report` (pyledger/db.py). -/
def agingBucket (days_overdue : ℤ) : String :=
  if days_overdue ≤ 0 then "current"
  else if days_overdue ≤ 30 then "30_days"
  else if days_overdue ≤ 60 then "60_days"
  else if days_overdue ≤ 90 then "90_days"
  else "over_90_days"

/-- The aging row built for one outstanding invoice: note the SQL computes
`days_outstanding = julianday(schedule_date) - julianday(issue_date)` —
days since the ISSUE date, not the due date — and the loop then uses
`days_overdue = max(0, int(days_outstanding))`. -/
def agingRecordOfInvoice (schedule_date : ℤ) (i : DbInvoice) : AgingRecord :=
  { schedule_date := schedule_date
    schedule_type := "receivable"
    customer_supplier_name := i.customer_name
    invoice_number := some i.invoice_number
    po_number := none
    original_amount := i.total_amount
    current_balance := i.total_amount - i.paid_amount
    days_overdue := max 0 (schedule_date - i.issue_date)
    aging_period := agingBucket (max 0 (schedule_date - i.issue_date))
    notes := "Auto-generated aging entry for receivable" }

/-- The aging row built for one outstanding purchase order (days computed
from the ORDER date). -/
def agingRecordOfPO (schedule_date : ℤ) (p : DbPurchaseOrder) : AgingRecord :=
  { schedule_date := schedule_date
    schedule_type := "payable"
    customer_supplier_name := p.supplier_name
    invoice_number := none
    po_number := some p.po_number
    original_amount := p.total_amount
    current_balance := p.total_amount - p.received_total
    days_overdue := max 0 (schedule_date - p.order_date)
    aging_period := agingBucket (max 0 (schedule_date - p.order_date))
    notes := "Auto-generated aging entry for payable" }

/-- `generate_aging_report` (pyledger/db.py): select the outstanding
obligations of the direction (`paid_amount < total_amount`, resp.
`received_total < total_amount`), append one aging row each, and return
the number of items processed.  The SQL's ORDER BY only affects row
order, which no modelled claim reads. -/
def generate_aging_report (db : Database) (schedule_date : ℤ) (schedule_type : String) :
    Database × Nat :=
  if schedule_type == "receivable" then
    let items := db.invoices.filter (fun i => decide (i.paid_amount < i.total_amount))
    ({ db with agings := db.agings ++ items.map (agingRecordOfInvoice schedule_date) },
      items.length)
  else
    let items := db.purchase_orders.filter (fun p => decide (p.received_total < p.total_amount))
    ({ db with agings := db.agings ++ items.map (agingRecordOfPO schedule_date) },
      items.length)

/-- `get_aging_schedule(conn, schedule_type=...)`: every stored aging row
of that type, with no date filter (ordering again immaterial here). -/
def get_aging_schedule_by_type (db : Database) (schedule_type : String) : List AgingRecord :=
  db.agings.filter (fun r => r.schedule_type == schedule_type)

/-- One `{count, amount}` cell of the manager's aging summary. -/
structure BucketTotal where
  count : Nat
  amount : ℚ
deriving DecidableEq, Repr

/-- The five-bucket aging summary dict of
`PaymentClearingManager.generate_aging_report`. -/
structure AgingSummary where
  current : BucketTotal
  days30 : BucketTotal
  days60 : BucketTotal
  days90 : BucketTotal
  over90 : BucketTotal
deriving DecidableEq, Repr

/-- The summary dict as initialised: every bucket `{count 0, amount 0}`. -/
def emptySummary : AgingSummary := ⟨⟨0, 0⟩, ⟨0, 0⟩, ⟨0, 0⟩, ⟨0, 0⟩, ⟨0, 0⟩⟩

/-- One iteration of the manager's `for item in aging_data` loop:
item[9] is aging_period, item[7] is current_balance; unknown periods are
skipped. -/
def addToSummary (s : AgingSummary) (r : AgingRecord) : AgingSummary :=
  if r.aging_period == "current" then
    { s with current := ⟨s.current.count + 1, s.current.amount + r.current_balance⟩ }
  else if r.aging_period == "30_days" then
    { s with days30 := ⟨s.days30.count + 1, s.days30.amount + r.current_balance⟩ }
  else if r.aging_period == "60_days" then
    { s with days60 := ⟨s.days60.count + 1, s.days60.amount + r.current_balance⟩ }
  else if r.aging_period == "90_days" then
    { s with days90 := ⟨s.days90.count + 1, s.days90.amount + r.current_balance⟩ }
  else if r.aging_period == "over_90_days" then
    { s with over90 := ⟨s.over90.count + 1, s.over90.amount + r.current_balance⟩ }
  else s

/-- The manager's aging summary over the fetched aging data. -/
def aging_summary (data : List AgingRecord) : AgingSummary :=
  data.foldl addToSummary emptySummary

/-- `total_amount = sum(period['amount'] for period in aging_summary.values())`. -/
def summaryTotalAmount (s : AgingSummary) : ℚ :=
  s.current.amount + s.days30.amount + s.days60.amount + s.days90.amount + s.over90.amount

/-- `total_count = sum(period['count'] for period in aging_summary.values())`. -/
def summaryTotalCount (s : AgingSummary) : Nat :=
  s.current.count + s.days30.count + s.days60.count + s.days90.count + s.over90.count

/-- `PaymentClearingManager.generate_aging_report`: run the db-level
generation (which appends rows), fetch ALL aging rows of the type, and
summarise them.  Returns (new database state, summary, items processed). -/
def manager_generate_aging_report (db : Database) (report_date : ℤ) (schedule_type : String) :
    Database × AgingSummary × Nat :=
  let res := generate_aging_report db report_date schedule_type
  (res.1, aging_summary (get_aging_schedule_by_type res.1 schedule_type), res.2)

/-- Invoice for the C4 counter-evaluation: issued 45 days before the
as-of date 45 used below, due 15 days after it, fully outstanding. -/
def c4inv : DbInvoice :=
  { invoice_number := "INV-45", customer_name := "Acme", customer_address := "1 Way"
    issue_date := 0, due_date := 60, status := "unpaid", notes := ""
    subtotal := 500, total_tax := 0, total_amount := 500, paid_amount := 0, paid_date := none }

/-- Database for the C4 evaluation. -/
def c4db : Database := ⟨[c4inv], [], [], []⟩

/-- Invoice for the C5 evaluation: subtotal 1000, tax 100, total 1100,
nothing paid. -/
def c5inv : DbInvoice :=
  { invoice_number := "INV-A", customer_name := "Beta", customer_address := "2 Way"
    issue_date := 10, due_date := 40, status := "unpaid", notes := ""
    subtotal := 1000, total_tax := 100, total_amount := 1100, paid_amount := 0, paid_date := none }

/-- Database for the C5 evaluation. -/
def c5db : Database := ⟨[c5inv], [], [], []⟩

/-- Invoice for the C7 witness: total 6050, nothing paid yet. -/
def c7inv : DbInvoice :=
  { invoice_number := "INV-100", customer_name := "Gamma", customer_address := "3 Way"
    issue_date := 100, due_date := 130, status := "unpaid", notes := ""
    subtotal := 5500, total_tax := 550, total_amount := 6050, paid_amount := 0, paid_date := none }

/-- Database for the C7 witness. -/
def c7db : Database := ⟨[c7inv], [], [], []⟩

/-- Invoice for the C8 counterexample: status still unpaid although the
paid amount already equals the total. -/
def c8inv : DbInvoice :=
  { invoice_number := "INV-X", customer_name := "Delta", customer_address := "4 Way"
    issue_date := 50, due_date := 80, status := "unpaid", notes := ""
    subtotal := 100, total_tax := 0, total_amount := 100, paid_amount := 100, paid_date := none }

/-- Database for the C8 counterexample. -/
def c8db : Database := ⟨[c8inv], [], [], []⟩

/-- Invoice for the C9 evaluation: total 300 outstanding, issued 10 days
before the as-of date 10 used below. -/
def c9inv : DbInvoice :=
  { invoice_number := "INV-R", customer_name := "Echo", customer_address := "5 Way"
    issue_date := 0, due_date := 30, status := "unpaid", notes := ""
    subtotal := 300, total_tax := 0, total_amount := 300, paid_amount := 0, paid_date := none }

/-- Database for the C9 evaluation. -/
def c9db : Database := ⟨[c9inv], [], [], []⟩

/-- The aging row the scheduler derives from `c9inv` as of day 10. -/
def c9rec : AgingRecord :=
  { schedule_date := 10, schedule_type := "receivable"
    customer_supplier_name := "Echo", invoice_number := some "INV-R"
    po_number := none, original_amount := 300, current_balance := 300
    days_overdue := 10, aging_period := "30_days"
    notes := "Auto-generated aging entry for receivable" }

/-- The database after the first C9 aging run. -/
def c9db1 : Database := { c9db with agings := [c9rec] }

/-- The database after the second C9 aging run: the row is silently
duplicated. -/
def c9db2 : Database := { c9db with agings := [c9rec, c9rec] }

/-- Total amount of an allocation list (used to state conservation). -/
def sumAllocated (allocations : List Allocation) : ℚ :=
  (allocations.map (fun a => a.amount)).sum

/-- The spec's ClearMany example: A outstanding 4000, B outstanding 1000. -/
def c6invs : List ClearingInvoice :=
  [⟨"A", 4000, 4000, 0, 1⟩, ⟨"B", 1000, 1000, 0, 2⟩]

/-- Updating under `code` with a code-preserving function rewrites the
looked-up account by that function. -/
theorem getAccount_update (code : String) (f : Account → Account)
    (hf : ∀ a, (f a).code = a.code) :
    ∀ (chart : List Account) (acct : Account), getAccount chart code = some acct →
      getAccount (updateAccount code f chart) code = some (f acct) := by
  intro chart
  induction chart with
  | nil => intro acct h; simp [getAccount] at h
  | cons a rest ih =>
    intro acct h
    by_cases hc : a.code == code
    · simp [getAccount, List.find?, hc] at h
      subst h
      simp [updateAccount, hc, getAccount, List.find?, hf a]
    · simp [getAccount, List.find?, hc] at h ⊢
      simp [updateAccount, hc, getAccount, List.find?]
      exact ih acct h

/-- `applyLineAccount` does not change the account code. -/
theorem applyLineAccount_code (a : Account) (line : JournalLine) :
    (applyLineAccount a line).code = a.code := by
  unfold applyLineAccount
  split <;> split <;> rfl

/-- `applyLineAccount` adds exactly the spec's signed delta to the balance. -/
theorem applyLineAccount_eq_specDelta (a : Account) (line : JournalLine) :
    applyLineAccount a line =
      { a with balance := a.balance + specSignedDelta a.type line.amount line.is_debit } := by
  unfold applyLineAccount specSignedDelta
  cases h : line.is_debit <;> cases a.type <;> simp [sub_eq_add_neg]

/-- Evaluation of the spec's worked example through the embedded posting
engine. -/
theorem scenarioLedger_eval :
    scenarioLedger =
      ⟨[⟨"1000", "Cash", AccountType.asset, 2000⟩,
        ⟨"1500", "Equipment", AccountType.asset, 8000⟩,
        ⟨"3000", "Owner Equity", AccountType.equity, 10000⟩],
       [⟨"Initial investment", [⟨"1000", 10000, true⟩, ⟨"3000", 10000, false⟩]⟩,
        ⟨"Buy equipment", [⟨"1500", 8000, true⟩, ⟨"1000", 8000, false⟩]⟩]⟩ := by
  have hb1 : is_balanced [⟨"1000", 10000, true⟩, ⟨"3000", 10000, false⟩] = true := by
    norm_num [is_balanced, totalDebits, totalCredits]
  have hb2 : is_balanced [⟨"1500", 8000, true⟩, ⟨"1000", 8000, false⟩] = true := by
    norm_num [is_balanced, totalDebits, totalCredits]
  have e1 : mkJournalEntry "Initial investment" [⟨"1000", 10000, true⟩, ⟨"3000", 10000, false⟩]
      = some ⟨"Initial investment", [⟨"1000", 10000, true⟩, ⟨"3000", 10000, false⟩]⟩ := by
    simp only [mkJournalEntry, hb1, if_true]
  have p1 : post_entry freshLedger
        ⟨"Initial investment", [⟨"1000", 10000, true⟩, ⟨"3000", 10000, false⟩]⟩
      = (⟨[⟨"1000", "Cash", AccountType.asset, 10000⟩,
           ⟨"1500", "Equipment", AccountType.asset, 0⟩,
           ⟨"3000", "Owner Equity", AccountType.equity, 10000⟩],
          [⟨"Initial investment", [⟨"1000", 10000, true⟩, ⟨"3000", 10000, false⟩]⟩]⟩, true) := by
    simp +decide [post_entry, freshLedger, cashAccount, equipmentAccount, equityAccount,
      postLines, applyLine, applyLineAccount, getAccount, updateAccount, List.find?]
  have e2 : mkJournalEntry "Buy equipment" [⟨"1500", 8000, true⟩, ⟨"1000", 8000, false⟩]
      = some ⟨"Buy equipment", [⟨"1500", 8000, true⟩, ⟨"1000", 8000, false⟩]⟩ := by
    simp only [mkJournalEntry, hb2, if_true]
  have p2 : post_entry
        ⟨[⟨"1000", "Cash", AccountType.asset, 10000⟩,
          ⟨"1500", "Equipment", AccountType.asset, 0⟩,
          ⟨"3000", "Owner Equity", AccountType.equity, 10000⟩],
         [⟨"Initial investment", [⟨"1000", 10000, true⟩, ⟨"3000", 10000, false⟩]⟩]⟩
        ⟨"Buy equipment", [⟨"1500", 8000, true⟩, ⟨"1000", 8000, false⟩]⟩
      = (⟨[⟨"1000", "Cash", AccountType.asset, 2000⟩,
           ⟨"1500", "Equipment", AccountType.asset, 8000⟩,
           ⟨"3000", "Owner Equity", AccountType.equity, 10000⟩],
          [⟨"Initial investment", [⟨"1000", 10000, true⟩, ⟨"3000", 10000, false⟩]⟩,
           ⟨"Buy equipment", [⟨"1500", 8000, true⟩, ⟨"1000", 8000, false⟩]⟩]⟩, true) := by
    simp +decide [post_entry, postLines, applyLine, applyLineAccount, getAccount,
      updateAccount, List.find?]
    norm_num
  have c1 : constructAndPost freshLedger "Initial investment"
        [⟨"1000", 10000, true⟩, ⟨"3000", 10000, false⟩]
      = (⟨[⟨"1000", "Cash", AccountType.asset, 10000⟩,
           ⟨"1500", "Equipment", AccountType.asset, 0⟩,
           ⟨"3000", "Owner Equity", AccountType.equity, 10000⟩],
          [⟨"Initial investment", [⟨"1000", 10000, true⟩, ⟨"3000", 10000, false⟩]⟩]⟩, true) := by
    unfold constructAndPost
    rw [e1]
    exact p1
  have c1p : (constructAndPost freshLedger "Initial investment"
        [⟨"1000", 10000, true⟩, ⟨"3000", 10000, false⟩]).1
      = ⟨[⟨"1000", "Cash", AccountType.asset, 10000⟩,
          ⟨"1500", "Equipment", AccountType.asset, 0⟩,
          ⟨"3000", "Owner Equity", AccountType.equity, 10000⟩],
         [⟨"Initial investment", [⟨"1000", 10000, true⟩, ⟨"3000", 10000, false⟩]⟩]⟩ := by
    rw [c1]
  have c2 : constructAndPost
        ⟨[⟨"1000", "Cash", AccountType.asset, 10000⟩,
          ⟨"1500", "Equipment", AccountType.asset, 0⟩,
          ⟨"3000", "Owner Equity", AccountType.equity, 10000⟩],
         [⟨"Initial investment", [⟨"1000", 10000, true⟩, ⟨"3000", 10000, false⟩]⟩]⟩
        "Buy equipment" [⟨"1500", 8000, true⟩, ⟨"1000", 8000, false⟩]
      = (⟨[⟨"1000", "Cash", AccountType.asset, 2000⟩,
           ⟨"1500", "Equipment", AccountType.asset, 8000⟩,
           ⟨"3000", "Owner Equity", AccountType.equity, 10000⟩],
          [⟨"Initial investment", [⟨"1000", 10000, true⟩, ⟨"3000", 10000, false⟩]⟩,
           ⟨"Buy equipment", [⟨"1500", 8000, true⟩, ⟨"1000", 8000, false⟩]⟩]⟩, true) := by
    unfold constructAndPost
    rw [e2]
    exact p2
  unfold scenarioLedger
  rw [c1p, c2]

/-- C1: every line applied by `Ledger.post_entry` changes the referenced
account's balance by the sign rule (debits increase Asset/Expense and
decrease Liability/Equity/Revenue balances; credits do the opposite), and
posting {Debit Cash 10000, Credit Equity 10000} then {Debit Equipment
8000, Credit Cash 8000} on a fresh chart leaves Cash = 2000, Equipment =
8000, Equity = 10000. -/
theorem C1_sign_rule_and_example (chart : List Account) (line : JournalLine) (acct : Account)
    (h : getAccount chart line.account_code = some acct) :
    (∃ chart2, applyLine chart line = some chart2 ∧
      getAccount chart2 line.account_code =
        some { acct with
                balance := acct.balance + specSignedDelta acct.type line.amount line.is_debit })
    ∧ scenarioBalances := by
  constructor
  · refine ⟨updateAccount line.account_code (fun a => applyLineAccount a line) chart, ?_, ?_⟩
    · unfold applyLine
      rw [h]
    · have hupd := getAccount_update line.account_code (fun a => applyLineAccount a line)
        (fun a => applyLineAccount_code a line) chart acct h
      rw [hupd]
      simp [applyLineAccount_eq_specDelta]
  · unfold scenarioBalances
    rw [scenarioLedger_eval]
    refine ⟨?_, ?_, ?_⟩ <;> simp [getAccount, List.find?]

/-- Witness for C1 at a concrete chart and line. -/
theorem C1_sign_rule_and_example_witness :
    getAccount [cashAccount] (JournalLine.mk "1000" 5 true).account_code = some cashAccount
    ∧ ((∃ chart2, applyLine [cashAccount] (JournalLine.mk "1000" 5 true) = some chart2 ∧
        getAccount chart2 (JournalLine.mk "1000" 5 true).account_code =
          some { cashAccount with
                  balance := cashAccount.balance + specSignedDelta cashAccount.type 5 true })
      ∧ scenarioBalances) :=
  ⟨by simp [getAccount, cashAccount, List.find?],
    C1_sign_rule_and_example [cashAccount] (JournalLine.mk "1000" 5 true) cashAccount
      (by simp [getAccount, cashAccount, List.find?])⟩

/-- C2: a line set whose debit and credit totals differ by more than 1e-6
is rejected by the `JournalEntry` constructor (Unbalanced `ValueError`),
so the posting call fails and the ledger — in particular every account
balance — is unchanged. -/
theorem C2_unbalanced_rejected (led : Ledger) (description : String)
    (lines : List JournalLine)
    (h : 1 / 1000000 < |totalDebits lines - totalCredits lines|) :
    constructAndPost led description lines = (led, false) := by
  have hb : is_balanced lines = false := by
    unfold is_balanced
    simp only [decide_eq_false_iff_not, not_lt]
    exact le_of_lt h
  unfold constructAndPost mkJournalEntry
  rw [hb]
  simp

/-- Witness for C2: posting {Debit Cash 1000, Credit Equity 500} on the
fresh example ledger fails and changes nothing. -/
theorem C2_unbalanced_rejected_witness :
    1 / 1000000 <
      |totalDebits [⟨"1000", 1000, true⟩, ⟨"3000", 500, false⟩]
        - totalCredits [⟨"1000", 1000, true⟩, ⟨"3000", 500, false⟩]|
    ∧ constructAndPost freshLedger "bad" [⟨"1000", 1000, true⟩, ⟨"3000", 500, false⟩]
        = (freshLedger, false) :=
  ⟨by norm_num [totalDebits, totalCredits],
    C2_unbalanced_rejected freshLedger "bad" [⟨"1000", 1000, true⟩, ⟨"3000", 500, false⟩]
      (by norm_num [totalDebits, totalCredits])⟩

/-- C3 counterexample: posting the balanced entry {Debit Cash 500, Credit
9999 500} on a chart without account 9999 does fail, but Cash has already
been mutated from 0 to 500 when the failure occurs — the rejection is NOT
"before any mutation" and balances are NOT all as before the call.
Moreover an entry with an empty line set is not rejected at all. -/
theorem C3_counterexample :
    (constructAndPost c3Ledger "partial" c3Lines).2 = false
    ∧ getAccount c3Ledger.chart "1000" = some ⟨"1000", "Cash", AccountType.asset, 0⟩
    ∧ getAccount (constructAndPost c3Ledger "partial" c3Lines).1.chart "1000"
        = some ⟨"1000", "Cash", AccountType.asset, 500⟩
    ∧ (constructAndPost c3Ledger "partial" c3Lines).1.chart ≠ c3Ledger.chart
    ∧ (constructAndPost c3Ledger "empty" []).2 = true := by
  have hb : is_balanced c3Lines = true := by
    norm_num [is_balanced, c3Lines, totalDebits, totalCredits]
  have e1 : mkJournalEntry "partial" c3Lines = some ⟨"partial", c3Lines⟩ := by
    simp only [mkJournalEntry, hb, if_true]
  have p1 : post_entry c3Ledger ⟨"partial", c3Lines⟩
      = (⟨[⟨"1000", "Cash", AccountType.asset, 500⟩,
           ⟨"3000", "Equity", AccountType.equity, 0⟩], []⟩, false) := by
    simp +decide [post_entry, c3Ledger, c3Lines, postLines, applyLine, applyLineAccount,
      getAccount, updateAccount, List.find?]
  have c1 : constructAndPost c3Ledger "partial" c3Lines
      = (⟨[⟨"1000", "Cash", AccountType.asset, 500⟩,
           ⟨"3000", "Equity", AccountType.equity, 0⟩], []⟩, false) := by
    unfold constructAndPost
    rw [e1]
    exact p1
  have hbe : is_balanced ([] : List JournalLine) = true := by
    norm_num [is_balanced, totalDebits, totalCredits]
  have ce : constructAndPost c3Ledger "empty" [] = post_entry c3Ledger ⟨"empty", []⟩ := by
    unfold constructAndPost mkJournalEntry
    rw [hbe]
    simp
  refine ⟨by rw [c1], by simp [c3Ledger, getAccount, List.find?], by rw [c1]; simp +decide
    [getAccount, List.find?], by rw [c1]; simp +decide [c3Ledger], by rw [ce]; rfl⟩

/-- Every member of an updated chart is an old member or the image of one. -/
theorem mem_updateAccount (c : String) (f : Account → Account) :
    ∀ (l : List Account) (x : Account), x ∈ updateAccount c f l → x ∈ l ∨ ∃ y ∈ l, x = f y := by
  intro l
  induction l with
  | nil => intro x hx; exact absurd hx (by simp [updateAccount])
  | cons a rest ih =>
    intro x hx
    have hx' : x ∈ (if a.code == c then f a :: rest
        else a :: updateAccount c f rest) := hx
    by_cases hcc : (a.code == c) = true
    · rw [if_pos hcc] at hx'
      rcases List.mem_cons.mp hx' with rfl | hx2
      · exact Or.inr ⟨a, List.mem_cons_self a rest, rfl⟩
      · exact Or.inl (List.mem_cons_of_mem a hx2)
    · rw [if_neg hcc] at hx'
      rcases List.mem_cons.mp hx' with rfl | hx2
      · exact Or.inl (List.mem_cons_self x rest)
      · rcases ih x hx2 with h1 | ⟨y, hy, hyx⟩
        · exact Or.inl (List.mem_cons_of_mem a h1)
        · exact Or.inr ⟨y, List.mem_cons_of_mem a hy, hyx⟩

/-- `updateAccount` with a code-preserving function leaves the lookup of
a missing code missing. -/
theorem getAccount_update_none (c code : String) (f : Account → Account)
    (hf : ∀ a, (f a).code = a.code) (chart : List Account)
    (h : getAccount chart code = none) :
    getAccount (updateAccount c f chart) code = none := by
  rw [getAccount, List.find?_eq_none] at h ⊢
  intro x hx
  rcases mem_updateAccount c f chart x hx with hmem | ⟨y, hy, hyx⟩
  · exact h x hmem
  · intro hc
    refine h y hy ?_
    subst hyx
    rw [hf y] at hc
    exact hc

/-- If any pending line references a missing account code, the posting
loop fails. -/
theorem postLines_missing :
    ∀ (ls : List JournalLine) (chart : List Account),
      (∃ l ∈ ls, getAccount chart l.account_code = none) →
      (postLines chart ls).2 = false := by
  intro ls
  induction ls with
  | nil => intro chart h; obtain ⟨l, hl, _⟩ := h; simp at hl
  | cons l ls ih =>
    intro chart h
    obtain ⟨l', hl', hnone⟩ := h
    unfold postLines
    cases hap : applyLine chart l with
    | none => rfl
    | some chart2 =>
      unfold applyLine at hap
      cases hga : getAccount chart l.account_code with
      | none => rw [hga] at hap; exact absurd hap (by simp)
      | some acct =>
        rw [hga] at hap
        simp only [Option.some.injEq] at hap
        rcases List.mem_cons.mp hl' with rfl | hmem
        · rw [hga] at hnone; exact absurd hnone (by simp)
        · refine ih chart2 ⟨l', hmem, ?_⟩
          rw [← hap]
          exact getAccount_update_none l.account_code l'.account_code
            (fun a => applyLineAccount a l) (fun a => applyLineAccount_code a l) chart hnone

/-- C3 amended: if some line of an entry references a nonexistent account
code, `post_entry` raises `KeyError` and does not append the entry, but
balance mutations made by lines processed before the failing line are
kept (posting is not atomic); and an entry with an empty line set is not
rejected — it is appended unchanged and alters no balances. -/
theorem C3_amended_nonatomic (led : Ledger) (e : JournalEntry)
    (h : ∃ l ∈ e.lines, getAccount led.chart l.account_code = none) :
    ((post_entry led e).2 = false ∧ (post_entry led e).1.entries = led.entries)
    ∧ ∀ d : String, post_entry led ⟨d, []⟩
        = ({ chart := led.chart, entries := led.entries ++ [⟨d, []⟩] }, true) := by
  constructor
  · have hf := postLines_missing e.lines led.chart h
    unfold post_entry
    rcases hp : postLines led.chart e.lines with ⟨chart2, ok⟩
    rw [hp] at hf
    simp only at hf
    subst hf
    simp
  · intro d
    rfl

/-- Witness for C3's amended theorem at the counterexample input. -/
theorem C3_amended_nonatomic_witness :
    (∃ l ∈ (JournalEntry.mk "partial" c3Lines).lines,
        getAccount c3Ledger.chart l.account_code = none)
    ∧ (((post_entry c3Ledger ⟨"partial", c3Lines⟩).2 = false
        ∧ (post_entry c3Ledger ⟨"partial", c3Lines⟩).1.entries = c3Ledger.entries)
      ∧ ∀ d : String, post_entry c3Ledger ⟨d, []⟩
          = ({ chart := c3Ledger.chart, entries := c3Ledger.entries ++ [⟨d, []⟩] }, true)) :=
  ⟨⟨⟨"9999", 500, false⟩, by simp [c3Lines], by simp [c3Ledger, getAccount, List.find?]⟩,
    C3_amended_nonatomic c3Ledger ⟨"partial", c3Lines⟩
      ⟨⟨"9999", 500, false⟩, by simp [c3Lines], by simp [c3Ledger, getAccount, List.find?]⟩⟩

/-- `updateAccount` with a code-preserving function does not change the
lookup result of any other code. -/
theorem getAccount_update_other (c code : String) (f : Account → Account)
    (hf : ∀ a, (f a).code = a.code) (hne : code ≠ c) :
    ∀ chart : List Account, getAccount (updateAccount c f chart) code = getAccount chart code := by
  intro chart
  induction chart with
  | nil => rfl
  | cons a rest ih =>
    by_cases hcc : a.code == c
    · have hac : a.code = c := by
        exact beq_iff_eq.mp hcc
      have h1 : ((f a).code == code) = false := by
        rw [hf a, hac]
        exact beq_eq_false_iff_ne.mpr (fun hh => hne hh.symm)
      have h2 : (a.code == code) = false := by
        rw [hac]
        exact beq_eq_false_iff_ne.mpr (fun hh => hne hh.symm)
      simp only [updateAccount, hcc, if_true, getAccount, List.find?, h1, h2]
    · simp only [updateAccount, hcc, if_false, Bool.false_eq_true, getAccount, List.find?]
      cases hck : a.code == code with
      | true => rfl
      | false => exact ih

/-- The posting loop never touches accounts whose code is not referenced
by any pending line. -/
theorem postLines_frame :
    ∀ (ls : List JournalLine) (chart : List Account) (code : String),
      code ∉ ls.map JournalLine.account_code →
      getAccount (postLines chart ls).1 code = getAccount chart code := by
  intro ls
  induction ls with
  | nil => intro chart code _; rfl
  | cons l ls ih =>
    intro chart code hcode
    simp only [List.map_cons, List.mem_cons, not_or] at hcode
    obtain ⟨hne, hrest⟩ := hcode
    unfold postLines
    cases hap : applyLine chart l with
    | none => rfl
    | some chart2 =>
      have h2 : getAccount chart2 code = getAccount chart code := by
        unfold applyLine at hap
        cases hga : getAccount chart l.account_code with
        | none => rw [hga] at hap; exact absurd hap (by simp)
        | some acct =>
          rw [hga] at hap
          simp only [Option.some.injEq] at hap
          rw [← hap]
          exact getAccount_update_other l.account_code code
            (fun a => applyLineAccount a l) (fun a => applyLineAccount_code a l) hne chart
      rw [ih chart2 code (by simpa using hrest), h2]

/-- C10: an account whose code appears in none of a posted entry's lines
is returned identically (same code, name, type and balance) by the chart
lookup after `Ledger.post_entry`, whether the post succeeds or fails. -/
theorem C10_untouched_accounts_frame (led : Ledger) (e : JournalEntry) (code : String)
    (h : code ∉ e.lines.map JournalLine.account_code) :
    getAccount (post_entry led e).1.chart code = getAccount led.chart code := by
  have hp := postLines_frame e.lines led.chart code h
  unfold post_entry
  rcases hpl : postLines led.chart e.lines with ⟨chart2, ok⟩
  rw [hpl] at hp
  cases ok <;> simpa using hp

/-- Witness for C10: posting the first example entry does not touch the
Equipment account. -/
theorem C10_untouched_accounts_frame_witness :
    "1500" ∉ (JournalEntry.mk "Initial investment"
        [⟨"1000", 10000, true⟩, ⟨"3000", 10000, false⟩]).lines.map JournalLine.account_code
    ∧ getAccount (post_entry freshLedger
        ⟨"Initial investment", [⟨"1000", 10000, true⟩, ⟨"3000", 10000, false⟩]⟩).1.chart "1500"
      = getAccount freshLedger.chart "1500" :=
  ⟨by simp, C10_untouched_accounts_frame freshLedger
    ⟨"Initial investment", [⟨"1000", 10000, true⟩, ⟨"3000", 10000, false⟩]⟩ "1500" (by simp)⟩

/-- Mapping a number-preserving conditional update over an invoice list
rewrites the found invoice by the update. -/
theorem find_map_update (num : String) (g : DbInvoice → DbInvoice)
    (hg : ∀ i, (g i).invoice_number = i.invoice_number) :
    ∀ (l : List DbInvoice) (inv : DbInvoice),
      l.find? (fun i => i.invoice_number == num) = some inv →
      (l.map (fun i => if i.invoice_number == num then g i else i)).find?
        (fun i => i.invoice_number == num) = some (g inv) := by
  intro l
  induction l with
  | nil => intro inv h; simp at h
  | cons a rest ih =>
    intro inv h
    cases hc : (a.invoice_number == num) with
    | true =>
      have ha : a = inv := by
        rw [List.find?_cons_of_pos _ ?_] at h
        · exact Option.some.inj h
        · exact hc
      subst ha
      rw [List.map_cons, if_pos hc, List.find?_cons_of_pos]
      rw [hg a]
      exact hc
    | false =>
      have h2 : List.find? (fun i => i.invoice_number == num) rest = some inv := by
        rw [List.find?_cons_of_neg _ ?_] at h
        · exact h
        · simp [hc]
      rw [List.map_cons, if_neg (by simp [hc]), List.find?_cons_of_neg _ ?_]
      · exact ih inv h2
      · simp [hc]

/-- C7: for an existing obligation, `clear_invoice_payment` increments its
settled (paid) amount by exactly the payment, and appends exactly one
clearing record whose remaining balance is the signed value
`total − new settled amount`, with no over-payment rejection. -/
theorem C7_clear_one_effect (db : Database) (num : String) (p : ℚ) (date : ℤ)
    (ref method : String) (inv : DbInvoice)
    (h : fetchInvoice db num = some inv) :
    ∃ db2, clear_invoice_payment db num p date ref method = some db2 ∧
      fetchInvoice db2 num
        = some { inv with paid_amount := inv.paid_amount + p, paid_date := some date } ∧
      db2.clearings = db.clearings ++
        [{ clearing_date := date
           payment_type := "receivable"
           payment_reference := ref
           invoice_number := some num
           po_number := none
           customer_supplier_name := inv.customer_name
           original_amount := inv.total_amount
           cleared_amount := p
           remaining_amount := inv.total_amount - (inv.paid_amount + p)
           clearing_method := method
           notes := "Payment clearing for invoice " ++ num }] := by
  unfold clear_invoice_payment
  rw [h]
  refine ⟨_, rfl, ?_, ?_⟩
  · show (db.invoices.map (fun i =>
      if i.invoice_number == num then
        { i with paid_amount := inv.paid_amount + p, paid_date := some date }
      else i)).find? (fun i => i.invoice_number == num)
        = some { inv with paid_amount := inv.paid_amount + p, paid_date := some date }
    exact find_map_update num
      (fun i => { i with paid_amount := inv.paid_amount + p, paid_date := some date })
      (fun i => rfl) db.invoices inv h
  · rfl

/-- Witness for C7: the spec's example — invoice total 6050, payment 2000
yields settled 2000, remaining 4050, and exactly one new record. -/
theorem C7_clear_one_effect_witness :
    fetchInvoice c7db "INV-100" = some c7inv
    ∧ (∃ db2, clear_invoice_payment c7db "INV-100" 2000 150 "PAY-1" "partial" = some db2 ∧
        fetchInvoice db2 "INV-100"
          = some { c7inv with paid_amount := c7inv.paid_amount + 2000, paid_date := some 150 } ∧
        db2.clearings = c7db.clearings ++
          [{ clearing_date := 150
             payment_type := "receivable"
             payment_reference := "PAY-1"
             invoice_number := some "INV-100"
             po_number := none
             customer_supplier_name := c7inv.customer_name
             original_amount := c7inv.total_amount
             cleared_amount := 2000
             remaining_amount := c7inv.total_amount - (c7inv.paid_amount + 2000)
             clearing_method := "partial"
             notes := "Payment clearing for invoice " ++ "INV-100" }])
    ∧ c7inv.paid_amount + 2000 = 2000
    ∧ c7inv.total_amount - (c7inv.paid_amount + 2000) = 4050 :=
  ⟨by simp [fetchInvoice, c7db, c7inv, List.find?],
    C7_clear_one_effect c7db "INV-100" 2000 150 "PAY-1" "partial" c7inv
      (by simp [fetchInvoice, c7db, c7inv, List.find?]),
    by norm_num [c7inv], by norm_num [c7inv]⟩

/-- C8 counterexample: an invoice whose settled amount already equals its
total but whose status is still the string unpaid is NOT rejected by the
manager's single-invoice clearing — the call succeeds, pushes the settled
amount to 150 and appends a clearing record, contradicting the claim that
a fully settled obligation fails with a not-found error and nothing
changes. -/
theorem C8_counterexample :
    c8inv.total_amount ≤ c8inv.paid_amount
    ∧ (∃ db2, clear_single_invoice_payment c8db "INV-X" 50 200 "PAY-X" "partial" = some db2 ∧
        fetchInvoice db2 "INV-X"
          = some { c8inv with paid_amount := 150, paid_date := some 200 } ∧
        db2.clearings.length = 1) := by
  constructor
  · norm_num [c8inv]
  · have hfind : (list_invoices_with_status c8db "unpaid").find?
        (fun i => i.invoice_number == "INV-X") = some c8inv := by
      simp [list_invoices_with_status, c8db, c8inv, List.find?]
    have hfetch : fetchInvoice c8db "INV-X" = some c8inv := by
      simp [fetchInvoice, c8db, c8inv, List.find?]
    unfold clear_single_invoice_payment
    rw [hfind]
    unfold clear_invoice_payment
    rw [hfetch]
    refine ⟨_, rfl, ?_, ?_⟩
    · show (c8db.invoices.map (fun i =>
        if i.invoice_number == "INV-X" then
          { i with paid_amount := c8inv.paid_amount + 50, paid_date := some 200 }
        else i)).find? (fun i => i.invoice_number == "INV-X")
          = some { c8inv with paid_amount := 150, paid_date := some 200 }
      have := find_map_update "INV-X"
        (fun i => { i with paid_amount := c8inv.paid_amount + 50, paid_date := some 200 })
        (fun i => rfl) c8db.invoices c8inv hfetch
      rw [this]
      norm_num [c8inv]
    · rfl

/-- A member of a found-in filtered list makes the unfiltered lookup
succeed. -/
theorem fetch_of_find_filter (db : Database) (num : String) (inv : DbInvoice)
    (h : (list_invoices_with_status db "unpaid").find?
      (fun i => i.invoice_number == num) = some inv) :
    (fetchInvoice db num).isSome := by
  have hmem : inv ∈ list_invoices_with_status db "unpaid" := List.mem_of_find?_eq_some h
  have hpred := List.find?_some h
  have hmem2 : inv ∈ db.invoices := by
    unfold list_invoices_with_status at hmem
    exact List.mem_of_mem_filter hmem
  rw [fetchInvoice, List.find?_isSome]
  exact ⟨inv, hmem2, hpred⟩

/-- C8 amended: the manager's single-invoice clearing fails with the
not-found error exactly when the invoice number is absent from the
unpaid-STATUS list (it does not exist, or its status is not the string
unpaid); being fully settled by amount does not cause rejection, and a
failed call changes no settlement amount and creates no record (the
failure happens before any mutation). -/
theorem C8_amended_status_filter (db : Database) (num : String) (p : ℚ) (date : ℤ)
    (ref method : String) :
    clear_single_invoice_payment db num p date ref method = none
    ↔ (list_invoices_with_status db "unpaid").find?
        (fun i => i.invoice_number == num) = none := by
  unfold clear_single_invoice_payment
  cases hf : (list_invoices_with_status db "unpaid").find?
      (fun i => i.invoice_number == num) with
  | none => simp
  | some inv =>
    simp only
    constructor
    · intro hc
      exfalso
      have hsome := fetch_of_find_filter db num inv hf
      cases hfi : fetchInvoice db num with
      | none => rw [hfi] at hsome; simp at hsome
      | some inv2 =>
        unfold clear_invoice_payment at hc
        rw [hfi] at hc
        simp at hc
    · intro hs
      exact absurd hs (by simp)

/-- C4: the aging scheduler measures days from the ISSUE date, not the
due date.  An invoice issued 45 days before the as-of date but due only
15 days after it is bucketed 60_days by the code, while the claimed
formula max(0, asOfDate − due_date) = 0 puts it in current. -/
theorem C4_days_from_issue_date :
    (generate_aging_report c4db 45 "receivable").1.agings.map
        (fun r => (r.days_overdue, r.aging_period)) = [(45, "60_days")]
    ∧ (45 : ℤ) < c4inv.due_date
    ∧ agingBucket (max 0 (45 - c4inv.due_date)) = "current"
    ∧ (45 : ℤ) - c4inv.issue_date = 45 := by
  refine ⟨?_, by norm_num [c4inv], by norm_num [agingBucket, c4inv], by norm_num [c4inv]⟩
  have hflt : c4db.invoices.filter (fun i => decide (i.paid_amount < i.total_amount))
      = [c4inv] := by
    simp [c4db, List.filter]
    norm_num [c4inv]
  have hrec : agingRecordOfInvoice 45 c4inv
      = { schedule_date := 45, schedule_type := "receivable"
          customer_supplier_name := "Acme", invoice_number := some "INV-45", po_number := none
          original_amount := 500, current_balance := 500, days_overdue := 45
          aging_period := "60_days", notes := "Auto-generated aging entry for receivable" } := by
    norm_num [agingRecordOfInvoice, agingBucket, c4inv]
  unfold generate_aging_report
  rw [if_pos (by norm_num)]
  simp only [hflt, List.map_cons, List.map_nil, hrec]
  simp [c4db]

/-- C5: the multi-invoice clearing loads `outstanding` from row index 8,
which is the total_tax column — for an invoice with subtotal 1000, tax
100 (total 1100), nothing paid, it loads 100 instead of the
total − settled = 1100 that the claim (and the code's own comment)
state; and a call in which no listed invoice is eligible fails with the
no-eligible-obligations error, changing nothing. -/
theorem C5_outstanding_wrong_column :
    (gatherClearingInvoices c5db ["INV-A"]).map (fun i => i.outstanding) = [100]
    ∧ c5inv.total_amount - c5inv.paid_amount = 1100
    ∧ ((100 : ℚ) ≠ 1100)
    ∧ clear_multiple_invoices_payment c5db ["NOPE"] 50 20 "PAY" "proportional" = none := by
  have hfilter : list_invoices_with_status c5db "unpaid" = [c5inv] := by
    simp [list_invoices_with_status, c5db, List.filter, c5inv]
  refine ⟨?_, by norm_num [c5inv], by norm_num, ?_⟩
  · unfold gatherClearingInvoices
    rw [hfilter]
    simp [List.find?, c5inv]
  · have hgather : gatherClearingInvoices c5db ["NOPE"] = [] := by
      unfold gatherClearingInvoices
      rw [hfilter]
      simp [List.find?, c5inv]
    unfold clear_multiple_invoices_payment
    rw [hgather]
    rfl

/-- The generation step of the first C9 aging run. -/
theorem c9_first_run :
    generate_aging_report c9db 10 "receivable" = (c9db1, 1) := by
  have hflt : c9db.invoices.filter (fun i => decide (i.paid_amount < i.total_amount))
      = [c9inv] := by
    simp [c9db, List.filter]
    norm_num [c9inv]
  have hrec : agingRecordOfInvoice 10 c9inv = c9rec := by
    norm_num [agingRecordOfInvoice, agingBucket, c9inv, c9rec]
  unfold generate_aging_report
  rw [if_pos (by norm_num)]
  simp only [hflt, List.map_cons, List.map_nil, hrec]
  simp [c9db, c9db1]

/-- The generation step of the second C9 aging run: the identical row is
appended again. -/
theorem c9_second_run :
    generate_aging_report c9db1 10 "receivable" = (c9db2, 1) := by
  have hflt : c9db1.invoices.filter (fun i => decide (i.paid_amount < i.total_amount))
      = [c9inv] := by
    simp [c9db1, c9db, List.filter]
    norm_num [c9inv]
  have hrec : agingRecordOfInvoice 10 c9inv = c9rec := by
    norm_num [agingRecordOfInvoice, agingBucket, c9inv, c9rec]
  unfold generate_aging_report
  rw [if_pos (by norm_num)]
  simp only [hflt, List.map_cons, List.map_nil, hrec]
  simp [c9db1, c9db2, c9db]

/-- C9: rerunning the manager's aging report with the same date and
direction and no settlement change doubles the reported totals: the rows
are recomputed identically but appended again, and the summary is
computed over ALL stored rows of the type, so the grand total goes from
(1 item, 300) to (2 items, 600) instead of staying equal to a single
run's summary. -/
theorem C9_rerun_doubles_summary :
    (manager_generate_aging_report c9db 10 "receivable").1.agings = [c9rec]
    ∧ (manager_generate_aging_report
        (manager_generate_aging_report c9db 10 "receivable").1 10 "receivable").1.agings
      = [c9rec, c9rec]
    ∧ summaryTotalAmount (manager_generate_aging_report c9db 10 "receivable").2.1 = 300
    ∧ summaryTotalCount (manager_generate_aging_report c9db 10 "receivable").2.1 = 1
    ∧ summaryTotalAmount (manager_generate_aging_report
        (manager_generate_aging_report c9db 10 "receivable").1 10 "receivable").2.1 = 600
    ∧ summaryTotalCount (manager_generate_aging_report
        (manager_generate_aging_report c9db 10 "receivable").1 10 "receivable").2.1 = 2
    ∧ summaryTotalAmount (manager_generate_aging_report
          (manager_generate_aging_report c9db 10 "receivable").1 10 "receivable").2.1
        ≠ summaryTotalAmount (manager_generate_aging_report c9db 10 "receivable").2.1 := by
  have hget1 : get_aging_schedule_by_type c9db1 "receivable" = [c9rec] := by
    simp [get_aging_schedule_by_type, c9db1, c9db, List.filter, c9rec]
  have hget2 : get_aging_schedule_by_type c9db2 "receivable" = [c9rec, c9rec] := by
    simp [get_aging_schedule_by_type, c9db2, c9db, List.filter, c9rec]
  have hsum1 : aging_summary [c9rec] = ⟨⟨0, 0⟩, ⟨1, 300⟩, ⟨0, 0⟩, ⟨0, 0⟩, ⟨0, 0⟩⟩ := by
    simp [aging_summary, addToSummary, emptySummary, c9rec]
  have hsum2 : aging_summary [c9rec, c9rec] = ⟨⟨0, 0⟩, ⟨2, 600⟩, ⟨0, 0⟩, ⟨0, 0⟩, ⟨0, 0⟩⟩ := by
    simp [aging_summary, addToSummary, emptySummary, c9rec]
    norm_num
  have hm1 : manager_generate_aging_report c9db 10 "receivable"
      = (c9db1, ⟨⟨0, 0⟩, ⟨1, 300⟩, ⟨0, 0⟩, ⟨0, 0⟩, ⟨0, 0⟩⟩, 1) := by
    unfold manager_generate_aging_report
    rw [c9_first_run]
    simp only [hget1, hsum1]
  have hm2 : manager_generate_aging_report c9db1 10 "receivable"
      = (c9db2, ⟨⟨0, 0⟩, ⟨2, 600⟩, ⟨0, 0⟩, ⟨0, 0⟩, ⟨0, 0⟩⟩, 1) := by
    unfold manager_generate_aging_report
    rw [c9_second_run]
    simp only [hget2, hsum2]
  rw [hm1]
  simp only
  rw [hm2]
  refine ⟨by simp [c9db1], by simp [c9db2], by norm_num [summaryTotalAmount],
    by norm_num [summaryTotalCount], by norm_num [summaryTotalAmount],
    by norm_num [summaryTotalCount], by norm_num [summaryTotalAmount]⟩

/-- The Python running sum over outstanding amounts equals the list sum. -/
theorem foldl_add_outstanding (l : List ClearingInvoice) :
    ∀ a : ℚ, List.foldl (fun s i => s + i.outstanding) a l
      = a + (l.map (fun i => i.outstanding)).sum := by
  induction l with
  | nil => intro a; simp
  | cons i rest ih =>
    intro a
    simp only [List.foldl_cons, List.map_cons, List.sum_cons]
    rw [ih]
    ring

/-- `sumOutstanding` as a plain list sum. -/
theorem sumOutstanding_eq (l : List ClearingInvoice) :
    sumOutstanding l = (l.map (fun i => i.outstanding)).sum := by
  unfold sumOutstanding
  rw [foldl_add_outstanding]
  ring

/-- `sumAllocated` over a cons. -/
theorem sumAllocated_cons (a : Allocation) (l : List Allocation) :
    sumAllocated (a :: l) = a.amount + sumAllocated l := by
  simp [sumAllocated]

/-- Nonnegativity of the outstanding sum. -/
theorem sum_outstanding_nonneg (l : List ClearingInvoice)
    (h0 : ∀ i ∈ l, 0 ≤ i.outstanding) : 0 ≤ (l.map (fun i => i.outstanding)).sum := by
  refine List.sum_nonneg ?_
  intro x hx
  obtain ⟨j, hj, rfl⟩ := List.mem_map.mp hx
  exact h0 j hj

/-- The greedy loop pays out exactly `min remaining ΣOutstanding`. -/
theorem greedy_sum :
    ∀ (l : List ClearingInvoice) (r : ℚ), 0 ≤ r → (∀ i ∈ l, 0 ≤ i.outstanding) →
      sumAllocated (greedyAllocate r l) = min r ((l.map (fun i => i.outstanding)).sum) := by
  intro l
  induction l with
  | nil =>
    intro r hr _
    simp only [greedyAllocate, List.map_nil, List.sum_nil]
    rw [min_eq_right hr]
    simp [sumAllocated]
  | cons i rest ih =>
    intro r hr h0
    have hi : 0 ≤ i.outstanding := h0 i (List.mem_cons_self i rest)
    have hrest : ∀ j ∈ rest, 0 ≤ j.outstanding := fun j hj => h0 j (List.mem_cons_of_mem i hj)
    have hS : 0 ≤ (rest.map (fun i => i.outstanding)).sum := sum_outstanding_nonneg rest hrest
    simp only [List.map_cons, List.sum_cons]
    by_cases hr0 : r ≤ 0
    · have hr00 : r = 0 := le_antisymm hr0 hr
      subst hr00
      simp only [greedyAllocate, if_pos le_rfl, sumAllocated_cons]
      rw [ih 0 le_rfl hrest]
      rw [min_eq_left hS, min_eq_left (add_nonneg hi hS)]
      norm_num
    · simp only [greedyAllocate, if_neg hr0, sumAllocated_cons]
      have hra : 0 ≤ r - min r i.outstanding := sub_nonneg.mpr (min_le_left r i.outstanding)
      rw [ih (r - min r i.outstanding) hra hrest]
      rcases le_total r i.outstanding with hle | hle
      · rw [min_eq_left hle, sub_self, min_eq_left hS,
          min_eq_left (le_trans hle (le_add_of_nonneg_right hS))]
        ring
      · rw [min_eq_right hle]
        rcases le_total (r - i.outstanding) ((rest.map (fun i => i.outstanding)).sum)
          with h2 | h2
        · rw [min_eq_left h2, min_eq_left (sub_le_iff_le_add'.mp h2)]
          ring
        · rw [min_eq_right h2, min_eq_right (le_sub_iff_add_le'.mp h2)]
    -- the last case needs i.outstanding + Σ ≤ r from Σ ≤ r − i.outstanding

/-- Every greedy allocation keeps the invoice number of its position and
is capped by that invoice's outstanding amount. -/
theorem greedy_cap :
    ∀ (l : List ClearingInvoice) (r : ℚ), (∀ i ∈ l, 0 ≤ i.outstanding) →
      List.Forall₂ (fun (i : ClearingInvoice) (a : Allocation) =>
          a.invoice_number = i.invoice_number ∧ a.amount ≤ i.outstanding)
        l (greedyAllocate r l) := by
  intro l
  induction l with
  | nil => intro r _; simp [greedyAllocate]
  | cons i rest ih =>
    intro r h0
    have hi : 0 ≤ i.outstanding := h0 i (List.mem_cons_self i rest)
    have hrest : ∀ j ∈ rest, 0 ≤ j.outstanding := fun j hj => h0 j (List.mem_cons_of_mem i hj)
    by_cases hr0 : r ≤ 0
    · simp only [greedyAllocate, if_pos hr0]
      exact List.Forall₂.cons ⟨rfl, hi⟩ (ih r hrest)
    · simp only [greedyAllocate, if_neg hr0]
      exact List.Forall₂.cons ⟨rfl, min_le_right r i.outstanding⟩ (ih _ hrest)

/-- `sumAllocated` over a mapped list as a plain sum of the amounts. -/
theorem sumAllocated_map (f : ClearingInvoice → Allocation) (l : List ClearingInvoice) :
    sumAllocated (l.map f) = (l.map (fun i => (f i).amount)).sum := by
  unfold sumAllocated
  rw [List.map_map]
  rfl

/-- The proportional allocation pays out exactly `min total ΣOutstanding`. -/
theorem prop_alloc_sum (l : List ClearingInvoice) (t : ℚ)
    (h0 : ∀ i ∈ l, 0 ≤ i.outstanding) (ht : 0 ≤ t) :
    sumAllocated (allocate_proportional l t) = min t (sumOutstanding l) := by
  have hS0 : 0 ≤ sumOutstanding l := by
    rw [sumOutstanding_eq]
    exact sum_outstanding_nonneg l h0
  unfold allocate_proportional
  by_cases hpos : 0 < sumOutstanding l
  · simp only [if_pos hpos]
    rw [sumAllocated_map]
    show (l.map (fun inv =>
        min (t * (inv.outstanding / sumOutstanding l)) inv.outstanding)).sum
      = min t (sumOutstanding l)
    have hSne : sumOutstanding l ≠ 0 := ne_of_gt hpos
    rcases le_total t (sumOutstanding l) with hts | hst
    · have heach : ∀ inv ∈ l,
          min (t * (inv.outstanding / sumOutstanding l)) inv.outstanding
            = t / sumOutstanding l * inv.outstanding := by
        intro inv hinv
        have hcap : t * (inv.outstanding / sumOutstanding l) ≤ inv.outstanding := by
          rw [mul_div_assoc']
          rw [div_le_iff₀ hpos]
          calc t * inv.outstanding
              ≤ sumOutstanding l * inv.outstanding :=
                mul_le_mul_of_nonneg_right hts (h0 inv hinv)
            _ = inv.outstanding * sumOutstanding l := mul_comm _ _
        rw [min_eq_left hcap]
        ring
      rw [List.map_congr_left heach, List.sum_map_mul_left, ← sumOutstanding_eq,
        div_mul_cancel₀ t hSne, min_eq_left hts]
    · have heach : ∀ inv ∈ l,
          min (t * (inv.outstanding / sumOutstanding l)) inv.outstanding
            = inv.outstanding := by
        intro inv hinv
        refine min_eq_right ?_
        have hdiv : 0 ≤ inv.outstanding / sumOutstanding l :=
          div_nonneg (h0 inv hinv) hS0
        calc inv.outstanding
            = sumOutstanding l * (inv.outstanding / sumOutstanding l) := by
              field_simp
          _ ≤ t * (inv.outstanding / sumOutstanding l) :=
              mul_le_mul_of_nonneg_right hst hdiv
      rw [List.map_congr_left heach, ← sumOutstanding_eq, min_eq_right hst]
  · have hSz : sumOutstanding l = 0 := le_antisymm (not_lt.mp hpos) hS0
    simp only [if_neg hpos]
    rw [sumAllocated_map]
    show (l.map (fun _ => (0 : ℚ))).sum = min t (sumOutstanding l)
    rw [hSz, min_eq_right ht]
    simp

/-- Every proportional allocation keeps its invoice number and is capped
by its own outstanding amount. -/
theorem prop_alloc_cap (l : List ClearingInvoice) (t : ℚ)
    (h0 : ∀ i ∈ l, 0 ≤ i.outstanding) :
    List.Forall₂ (fun (i : ClearingInvoice) (a : Allocation) =>
        a.invoice_number = i.invoice_number ∧ a.amount ≤ i.outstanding)
      l (allocate_proportional l t) := by
  unfold allocate_proportional
  rw [List.forall₂_map_right_iff, List.forall₂_same]
  intro inv hinv
  by_cases hpos : 0 < sumOutstanding l
  · simp only [if_pos hpos]
    exact ⟨by simp, min_le_right _ _⟩
  · simp only [if_neg hpos]
    exact ⟨by simp, h0 inv hinv⟩

/-- C6: each allocation strategy (proportional, oldest_first,
largest_first) distributes exactly `min(totalAmount, ΣOutstanding)` over
the obligations, with every allocation carrying its obligation's number
and capped at that obligation's own outstanding amount (for the greedy
strategies, position-wise along the sorted allocation order).  The
arithmetic is exact (rationals), so no rounding remainder arises. -/
theorem C6_allocation_sum_and_cap (invoices : List ClearingInvoice) (t : ℚ)
    (_hne : invoices ≠ []) (h0 : ∀ i ∈ invoices, 0 ≤ i.outstanding) (ht : 0 ≤ t) :
    (sumAllocated (allocate_proportional invoices t) = min t (sumOutstanding invoices)
      ∧ List.Forall₂ (fun (i : ClearingInvoice) (a : Allocation) =>
          a.invoice_number = i.invoice_number ∧ a.amount ≤ i.outstanding)
        invoices (allocate_proportional invoices t))
    ∧ (sumAllocated (allocate_oldest_first invoices t) = min t (sumOutstanding invoices)
      ∧ List.Forall₂ (fun (i : ClearingInvoice) (a : Allocation) =>
          a.invoice_number = i.invoice_number ∧ a.amount ≤ i.outstanding)
        (invoices.mergeSort (fun a b => decide (a.issue_date ≤ b.issue_date)))
        (allocate_oldest_first invoices t))
    ∧ (sumAllocated (allocate_largest_first invoices t) = min t (sumOutstanding invoices)
      ∧ List.Forall₂ (fun (i : ClearingInvoice) (a : Allocation) =>
          a.invoice_number = i.invoice_number ∧ a.amount ≤ i.outstanding)
        (invoices.mergeSort (fun a b => decide (b.outstanding ≤ a.outstanding)))
        (allocate_largest_first invoices t)) := by
  have hpermO := List.mergeSort_perm invoices (fun a b => decide (a.issue_date ≤ b.issue_date))
  have hpermL := List.mergeSort_perm invoices (fun a b => decide (b.outstanding ≤ a.outstanding))
  have h0O : ∀ j ∈ invoices.mergeSort (fun a b => decide (a.issue_date ≤ b.issue_date)),
      0 ≤ j.outstanding := fun j hj => h0 j (hpermO.subset hj)
  have h0L : ∀ j ∈ invoices.mergeSort (fun a b => decide (b.outstanding ≤ a.outstanding)),
      0 ≤ j.outstanding := fun j hj => h0 j (hpermL.subset hj)
  refine ⟨⟨prop_alloc_sum invoices t h0 ht, prop_alloc_cap invoices t h0⟩, ⟨?_, ?_⟩, ⟨?_, ?_⟩⟩
  · unfold allocate_oldest_first
    rw [greedy_sum _ t ht h0O, sumOutstanding_eq]
    exact congrArg (min t) ((hpermO.map (fun i => i.outstanding)).sum_eq)
  · exact greedy_cap _ t h0O
  · unfold allocate_largest_first
    rw [greedy_sum _ t ht h0L, sumOutstanding_eq]
    exact congrArg (min t) ((hpermL.map (fun i => i.outstanding)).sum_eq)
  · exact greedy_cap _ t h0L

/-- Witness for C6 at the spec's ClearMany example (A outstanding 4000,
B outstanding 1000, total payment 5000). -/
theorem C6_allocation_sum_and_cap_witness :
    (sumAllocated (allocate_proportional c6invs 5000) = min 5000 (sumOutstanding c6invs)
      ∧ List.Forall₂ (fun (i : ClearingInvoice) (a : Allocation) =>
          a.invoice_number = i.invoice_number ∧ a.amount ≤ i.outstanding)
        c6invs (allocate_proportional c6invs 5000))
    ∧ (sumAllocated (allocate_oldest_first c6invs 5000) = min 5000 (sumOutstanding c6invs)
      ∧ List.Forall₂ (fun (i : ClearingInvoice) (a : Allocation) =>
          a.invoice_number = i.invoice_number ∧ a.amount ≤ i.outstanding)
        (c6invs.mergeSort (fun a b => decide (a.issue_date ≤ b.issue_date)))
        (allocate_oldest_first c6invs 5000))
    ∧ (sumAllocated (allocate_largest_first c6invs 5000) = min 5000 (sumOutstanding c6invs)
      ∧ List.Forall₂ (fun (i : ClearingInvoice) (a : Allocation) =>
          a.invoice_number = i.invoice_number ∧ a.amount ≤ i.outstanding)
        (c6invs.mergeSort (fun a b => decide (b.outstanding ≤ a.outstanding)))
        (allocate_largest_first c6invs 5000)) :=
  C6_allocation_sum_and_cap c6invs 5000 (by simp [c6invs])
    (by intro i hi; fin_cases hi <;> norm_num [c6invs]) (by norm_num)

end PyLedger
